import Mathlib

/-!
Verification development for the sensybull-be press-release ingestion
pipeline.  Each Python module relevant to the checked properties is given
a shallow embedding: pure string manipulation is translated directly,
stateful objects become explicit state records, and every external
library call (the Groq HTTP client, `json.loads`, Python's `float(str)`
conversion, `time.time()` / `datetime.now()`) is passed in as an explicit
oracle parameter.  Exceptions are modelled with `Except`: a `.error`
value is an exception propagating out of the modelled function, while
caught exceptions are handled inside the definitions exactly where the
Python `try`/`except` blocks sit.

Numeric values that are Python floats (temperatures, confidence scores,
thresholds) are modelled as rationals; every comparison the claims touch
involves values such as 0.2 / 0.3 on which float and rational semantics
agree.  Python strings are modelled as Lean `String` (a list of
characters), with ASCII-only versions of `str.lower`, `str.strip` and
`str.split`, matching the ASCII data the claims are about.
-/

/-- ASCII whitespace as recognised by Python's `str.split` / `str.strip`
and by the regex class `\s` (modelled on its ASCII subset). -/
def isPyWs (c : Char) : Bool :=
  c = ' ' || c = '\t' || c = '\n' || c = '\r' || c = '\x0b' || c = '\x0c'

/-- `'A' ≤ c ≤ 'Z'`, the character class `[A-Z]`. -/
def isUpperAZ (c : Char) : Bool :=
  'A' ≤ c && c ≤ 'Z'

/-- Python `s.lower()` (ASCII). -/
def pyLower (s : String) : String :=
  String.mk (s.data.map Char.toLower)

/-- Python `s.strip()` (ASCII whitespace). -/
def pyStrip (s : String) : String :=
  String.mk (((s.data.dropWhile isPyWs).reverse.dropWhile isPyWs).reverse)

/-- Python `s[:n]` on a string (slice of the first `n` characters). -/
def pyTake (s : String) (n : Nat) : String :=
  String.mk (s.data.take n)

/-- Python `' '.join(text.split())`: split on runs of whitespace,
drop empty fragments, re-join with single spaces. -/
def pyJoinSplit (s : String) : String :=
  String.mk (List.intercalate [' ']
    (((s.data.splitOnP isPyWs).filter (fun w => w ≠ [])) ))

/-- Bool test for list containment of a character sequence
(`pat in s` in Python). -/
def containsSub (pat : List Char) (l : List Char) : Bool :=
  l.tails.any (fun t => pat.isPrefixOf t)

/-- `json.loads` output values.  An `.obj` models a decoded `dict`
(keys unique, as produced by the decoder). -/
inductive Json where
  | null
  | bool (b : Bool)
  | num (q : ℚ)
  | str (s : String)
  | arr (xs : List Json)
  | obj (fields : List (String × Json))
deriving Repr

/-- First-match lookup in a decoded JSON object, with a default:
`parsed.get(key, dflt)`. -/
def jGetD (fields : List (String × Json)) (key : String) (dflt : Json) : Json :=
  match fields.find? (fun kv => kv.1 == key) with
  | some kv => kv.2
  | none => dflt

/-- Python exceptions that the modelled code can raise and that are not
structurally represented (JSON decode failure is modelled as the decoder
oracle returning `none` instead). -/
inductive PyErr where
  | typeError (msg : String)
  | valueError (msg : String)
  | attributeError (msg : String)
deriving Repr, DecidableEq

/-- `str(e)` of a modelled Python exception. -/
def PyErr.text : PyErr → String
  | .typeError m => m
  | .valueError m => m
  | .attributeError m => m

/-- Python `float(x)` applied to a decoded JSON value.  String conversion
is delegated to the `strToFloat` oracle (Python's float parser); `none`
from the oracle is a `ValueError`.  `float(None)`, `float(list)`,
`float(dict)` raise `TypeError`. -/
def pyFloat (strToFloat : String → Option ℚ) : Json → Except PyErr ℚ
  | .num q => .ok q
  | .bool b => .ok (if b then 1 else 0)
  | .str s =>
    match strToFloat s with
    | some q => .ok q
    | none => .error (.valueError "could not convert string to float")
  | _ => .error (.typeError "float() argument must be a string or a number")

/-- Match of the regex `\x60\x60\x60json\s*|\s*\x60\x60\x60` at the head
of `l` (the markdown-fence stripper used by both response parsers),
returning the length consumed.  The first alternative is preferred at a
given position, as in `re`; the greedy `\s*` before the closing fence can
only match the maximal whitespace run because a backtick is not
whitespace. -/
def matchFenceAt (l : List Char) : Option Nat :=
  if ("```json".data).isPrefixOf l then
    some (7 + ((l.drop 7).takeWhile isPyWs).length)
  else
    let w := (l.takeWhile isPyWs).length
    if ("```".data).isPrefixOf (l.drop w) then some (w + 3) else none

/-- Scan loop of `re.sub(r'\x60\x60\x60json\s*|\s*\x60\x60\x60', '', output)`:
replace each non-overlapping leftmost match with the empty string. -/
def stripFencesAux : List Char → Nat → List Char
  | _, 0 => []
  | [], _ => []
  | c :: rest, fuel + 1 =>
    match matchFenceAt (c :: rest) with
    | some len => stripFencesAux ((c :: rest).drop len) fuel
    | none => c :: stripFencesAux rest fuel

/-- `re.sub(r'\x60\x60\x60json\s*|\s*\x60\x60\x60', '', output)`. -/
def stripFences (s : String) : String :=
  String.mk (stripFencesAux s.data s.data.length)

namespace GroqPool

/-- `GroqClientPoolConfig` (src/stream/groq_client_pool.py). -/
structure Config where
  models : List String
  temperature : ℚ
  maxTokens : Nat
  enableModelRotation : Bool

/-- The default model catalog installed by
`GroqClientPoolConfig.__post_init__`. -/
def defaultModels : List String :=
  ["llama-3.1-8b-instant",
   "meta-llama/llama-4-maverick-17b-128e-instruct",
   "llama-3.3-70b-versatile",
   "groq/compound",
   "groq/compound-mini",
   "allam-2-7b",
   "moonshotai/kimi-k2-instruct",
   "openai/gpt-oss-20b"]

/-- Mutable rotation/bookkeeping state of a `GroqClientPool` instance.
The per-model counters (`dict`s keyed by model name) are modelled as
functions from model name to value. -/
structure State where
  currentModelIndex : Nat
  modelFailures : String → Nat
  modelLastUsed : String → Nat
  totalApiCalls : Nat
  successfulCallsByModel : String → Nat

/-- Fresh state as set up in `GroqClientPool.__init__`. -/
def initState : State :=
  { currentModelIndex := 0
    modelFailures := fun _ => 0
    modelLastUsed := fun _ => 0
    totalApiCalls := 0
    successfulCallsByModel := fun _ => 0 }

/-- Pointwise bump of a per-model counter. -/
def bump (f : String → Nat) (k : String) : String → Nat :=
  fun x => if x = k then f k + 1 else f x

/-- `GroqClientPool._is_rate_limit_error`: pattern-match the lowered
error text against the known rate-limit indicators. -/
def isRateLimitError (e : String) : Bool :=
  ["rate limit", "rate_limit", "ratelimit", "429", "too many requests",
   "quota exceeded"].any
    (fun ind => containsSub ind.data (pyLower e).data)

/-- `GroqClientPool._get_next_model`: advance the cursor (wrap-around)
when rotation is enabled; with rotation disabled return the first model
without touching the cursor. -/
def getNextModel (cfg : Config) (st : State) : State × String :=
  if !cfg.enableModelRotation then
    (st, cfg.models.getD 0 "")
  else
    let i := (st.currentModelIndex + 1) % cfg.models.length
    ({ st with currentModelIndex := i }, cfg.models.getD i "")

/-- The `while len(models_tried) < len(self.config.models)` loop of
`GroqClientPool.call`.  `api` is the oracle for
`client.chat.completions.create` on this call, already specialised to the
prompt/temperature/max-tokens of the call: `.ok text` is a successful
response (`text` the message content before `.strip()`), `.error e` an
exception with `str(e) = e`.  `now` models `time.time()`.  The loop body
runs at most once per model, so `fuel = len(models) + 1` makes the
artificial fuel-exhaustion branch unreachable; its value coincides with
the loop-exit `raise last_error` for uniformity. -/
def callAux (cfg : Config) (api : String → Except String String) (now : Nat) :
    State → List String → Option String → Nat →
    State × Except String (String × String)
  | st, _, lastError, 0 =>
    (st, .error (lastError.getD "All models unavailable"))
  | st, modelsTried, lastError, fuel + 1 =>
    if modelsTried.length < cfg.models.length then
      let currentModel := cfg.models.getD st.currentModelIndex ""
      if currentModel ∈ modelsTried then
        (st, .error (lastError.getD "All models unavailable"))
      else
        let tried := currentModel :: modelsTried
        match api currentModel with
        | .ok text =>
          ({ st with
              totalApiCalls := st.totalApiCalls + 1
              successfulCallsByModel := bump st.successfulCallsByModel currentModel
              modelLastUsed := fun x =>
                if x = currentModel then now else st.modelLastUsed x },
            .ok (pyStrip text, currentModel))
        | .error e =>
          let st' := { st with modelFailures := bump st.modelFailures currentModel }
          if isRateLimitError e then
            if cfg.enableModelRotation && tried.length < cfg.models.length then
              callAux cfg api now (getNextModel cfg st').1 tried (some e) fuel
            else
              (st', .error e)
          else
            (st', .error e)
    else
      (st, .error (lastError.getD "All models unavailable"))

/-- `GroqClientPool.call(prompt, temperature, max_tokens)`.  `rawApi`
is the oracle for the Groq completion endpoint, taking the model name,
prompt, effective temperature and effective max-tokens. -/
def call (cfg : Config)
    (rawApi : String → String → ℚ → Nat → Except String String) (now : Nat)
    (st : State) (prompt : String)
    (temperature : Option ℚ) (maxTokens : Option Nat) :
    State × Except String (String × String) :=
  let temp := temperature.getD cfg.temperature
  let tokens := maxTokens.getD cfg.maxTokens
  callAux cfg (fun m => rawApi m prompt temp tokens) now st [] none
    (cfg.models.length + 1)

/-- `GroqClientPool.reset_stats`: zero every counter; the rotation cursor
is not touched. -/
def resetStats (st : State) : State :=
  { st with
      totalApiCalls := 0
      successfulCallsByModel := fun _ => 0
      modelFailures := fun _ => 0
      modelLastUsed := fun _ => 0 }

end GroqPool

namespace Transformer

/-- `TransformerConfig` (src/stream/article_transformer.py). -/
structure Config where
  models : List String
  temperature : ℚ
  maxTokens : Nat
  retryAttempts : Nat
  defaultThreshold : ℚ
  maxTextLength : Nat
  enableModelRotation : Bool

/-- Default model catalog installed by `TransformerConfig.__post_init__`
(one more entry than the pool's list). -/
def defaultModels : List String :=
  ["llama-3.1-8b-instant",
   "meta-llama/llama-4-maverick-17b-128e-instruct",
   "llama-3.3-70b-versatile",
   "qwen/qwen3-32b",
   "groq/compound",
   "groq/compound-mini",
   "allam-2-7b",
   "moonshotai/kimi-k2-instruct",
   "openai/gpt-oss-20b"]

/-- `TransformerConfig()` with all dataclass defaults. -/
def defaultConfig : Config :=
  { models := defaultModels
    temperature := 0.1
    maxTokens := 500
    retryAttempts := 3
    defaultThreshold := 0.3
    maxTextLength := 2000
    enableModelRotation := true }

/-- `ArticleTransformer`'s own rotation state (the class duplicates the
pool's rotation bookkeeping verbatim). -/
structure State where
  currentModelIndex : Nat
  modelFailures : String → Nat
  modelLastUsed : String → Nat
  totalApiCalls : Nat
  successfulCallsByModel : String → Nat

/-- Fresh per-instance rotation state from `ArticleTransformer.__init__`. -/
def initState : State :=
  { currentModelIndex := 0
    modelFailures := fun _ => 0
    modelLastUsed := fun _ => 0
    totalApiCalls := 0
    successfulCallsByModel := fun _ => 0 }

/-- `self.categories` — the valid category list of the transformer.
Note the canonical entry is the space form "Spin offs". -/
def categories : List String :=
  ["M&A", "Spin offs", "Buybacks", "Guidance", "Leadership",
   "Approvals", "Activism", "General"]

/-- `self.category_descriptions`. -/
def categoryDescriptions : List (String × String) :=
  [("M&A", "mergers, acquisitions, deals, takeovers, purchases, buying companies"),
   ("Spin offs", "spin-offs, carve-outs, separating business units, splitting companies"),
   ("Buybacks", "share buybacks, stock repurchases, dividend payments, shareholder returns"),
   ("Guidance", "earnings guidance, financial forecasts, preliminary results, outlook, pre-announcements"),
   ("Leadership", "CEO appointments, executive changes, board members, management transitions"),
   ("Approvals", "FDA approvals, drug approvals, product launches, regulatory approvals"),
   ("Activism", "activist investors, shareholder activism, proxy fights, corporate governance"),
   ("General", "business updates, partnerships, product announcements, or other topics")]

/-- `ArticleTransformer._validate_category`: exact membership first, then
a case-insensitive scan over `categories`, else "General".  There is no
alias table. -/
def validateCategory (category : String) : String :=
  if category ∈ categories then category
  else
    match categories.find? (fun v => pyLower v == pyLower category) with
    | some v => v
    | none => "General"

/-- `_validate_category` applied to a decoded JSON value: a non-string
raises `AttributeError` at `category.lower()` (list membership of a
non-string against the string list is simply `False`). -/
def validateCategoryJ : Json → Except PyErr String
  | .str s => .ok (validateCategory s)
  | _ => .error (.attributeError "object has no attribute lower")

/-- `ArticleTransformer._preprocess_text`: collapse whitespace, then
truncate to `max_text_length`. -/
def preprocessText (maxLen : Nat) (text : String) : String :=
  if text = "" then ""
  else
    let t := pyJoinSplit text
    if maxLen < t.data.length then pyTake t maxLen else t

/-- `ArticleTransformer._build_prompt`.  `floatRepr` models Python's
f-string rendering of the float threshold. -/
def buildPrompt (floatRepr : ℚ → String) (title text : String) (threshold : ℚ) :
    String :=
  let labels := categoryDescriptions.map (fun cd => "  - " ++ cd.1 ++ ": " ++ cd.2)
  let labelsStr := String.mk (List.intercalate ['\n'] (labels.map String.data))
  "You are an expert financial analyst at Bloomberg specializing in press release analysis.\n\n"
  ++ "Analyze the following press release and provide:\n"
  ++ "1. A REFINED TITLE (maximum 10 words) - improve the existing title if needed\n"
  ++ "2. TWO BULLET POINTS (maximum 10 words each) - extract the two most important points from the article and create concise bullet points for each, elaborate beyond the title here\n"
  ++ "3. A JARGON-FREE SUMMARY (maximum 300 words) - explain in plain English, elaborate beyond the bullet points here\n"
  ++ "4. CATEGORY - the single most relevant category from the list below\n"
  ++ "5. CONFIDENCE - How confident are you on a scale of 0.0 to 1.0 with the category assigned for the article.\n\n"
  ++ "CATEGORIES:\n" ++ labelsStr ++ "\n\n"
  ++ "CLASSIFICATION RULES:\n"
  ++ "- Only assign a specific category if confidence is >= " ++ floatRepr threshold ++ "\n"
  ++ "- If uncertain, use \"General\"\n\n"
  ++ "ARTICLE TITLE: " ++ title ++ "\n\n"
  ++ "ARTICLE TEXT:\n" ++ text ++ "\n\n"
  ++ "Respond ONLY with valid JSON:\n"
  ++ "\x7b\n"
  ++ "  \"title\": \"Refined title here\",\n"
  ++ "  \"bullets\": [\"bullet point 1\", \"bullet point 2\"],\n"
  ++ "  \"summary\": \"Plain English explanation of the article\",\n"
  ++ "  \"category\": \"exact category name from list above\",\n"
  ++ "  \"confidence\": 0.95\n"
  ++ "\x7d"

/-- `ArticleTransformer._get_next_model` (verbatim duplicate of the
pool's). -/
def getNextModel (cfg : Config) (st : State) : State × String :=
  if !cfg.enableModelRotation then
    (st, cfg.models.getD 0 "")
  else
    let i := (st.currentModelIndex + 1) % cfg.models.length
    ({ st with currentModelIndex := i }, cfg.models.getD i "")

/-- Loop of `ArticleTransformer._call_api_with_rotation` (a verbatim
duplicate of the pool's rotation loop; the create call always uses the
config temperature and max-tokens, so the oracle is keyed by model name
only). -/
def callApiWithRotationAux (cfg : Config) (api : String → Except String String)
    (now : Nat) :
    State → List String → Option String → Nat →
    State × Except String (String × String)
  | st, _, lastError, 0 =>
    (st, .error (lastError.getD "All models unavailable"))
  | st, modelsTried, lastError, fuel + 1 =>
    if modelsTried.length < cfg.models.length then
      let currentModel := cfg.models.getD st.currentModelIndex ""
      if currentModel ∈ modelsTried then
        (st, .error (lastError.getD "All models unavailable"))
      else
        let tried := currentModel :: modelsTried
        match api currentModel with
        | .ok text =>
          ({ st with
              totalApiCalls := st.totalApiCalls + 1
              successfulCallsByModel := GroqPool.bump st.successfulCallsByModel currentModel
              modelLastUsed := fun x =>
                if x = currentModel then now else st.modelLastUsed x },
            .ok (pyStrip text, currentModel))
        | .error e =>
          let st' := { st with modelFailures := GroqPool.bump st.modelFailures currentModel }
          if GroqPool.isRateLimitError e then
            if cfg.enableModelRotation && tried.length < cfg.models.length then
              callApiWithRotationAux cfg api now (getNextModel cfg st').1 tried (some e) fuel
            else
              (st', .error e)
          else
            (st', .error e)
    else
      (st, .error (lastError.getD "All models unavailable"))

/-- `ArticleTransformer._call_api_with_rotation(prompt)`. -/
def callApiWithRotation (cfg : Config) (api : String → Except String String)
    (now : Nat) (st : State) : State × Except String (String × String) :=
  callApiWithRotationAux cfg api now st [] none (cfg.models.length + 1)

/-- `ArticleTransformer._call_api`: forward the rotation result,
re-raising any exception unchanged and dropping the model name. -/
def callApi (cfg : Config) (api : String → Except String String) (now : Nat)
    (st : State) : State × Except String String :=
  match callApiWithRotation cfg api now st with
  | (st', .ok (text, _)) => (st', .ok text)
  | (st', .error e) => (st', .error e)

/-- Python slice `v[:n]` on a decoded JSON value: strings and lists
slice, anything else raises `TypeError`. -/
def jsonSlice : Json → Nat → Except PyErr Json
  | .str s, n => .ok (.str (pyTake s n))
  | .arr xs, n => .ok (.arr (xs.take n))
  | _, _ => .error (.typeError "object is not subscriptable")

/-- The 4-tuple returned by `_parse_response` / `transform`:
(title, bullets, summary, category).  The first three slots are decoded
JSON values because Python forwards whatever the model produced (only
the category is guaranteed to be a string after validation). -/
structure TrParsed where
  title : Json
  bullets : Json
  summary : Json
  category : String

/-- Match of `"<key>"\s*:\s*"([^"]+)"` at the head of `l`; returns
group 1. -/
def matchKeyStrAt (key : List Char) (l : List Char) : Option String :=
  let pat := '"' :: (key ++ ['"'])
  if pat.isPrefixOf l then
    let r1 := l.drop pat.length
    let r2 := r1.drop ((r1.takeWhile isPyWs).length)
    match r2 with
    | ':' :: r3 =>
      let r4 := r3.drop ((r3.takeWhile isPyWs).length)
      match r4 with
      | '"' :: r5 =>
        let content := r5.takeWhile (fun c => c ≠ '"')
        if content = [] then none
        else
          match r5.drop content.length with
          | '"' :: _ => some (String.mk content)
          | _ => none
      | _ => none
    | _ => none
  else none

/-- `re.search(r'"<key>"\s*:\s*"([^"]+)"', output)`: leftmost match. -/
def searchKeyStr (key : String) : List Char → Option String
  | [] => none
  | c :: rest =>
    match matchKeyStrAt key.data (c :: rest) with
    | some s => some s
    | none => searchKeyStr key rest

/-- Match of `"bullets"\s*:\s*\[([^\]]+)\]` at the head of `l`. -/
def matchBulletsAt (l : List Char) : Option String :=
  let pat := '"' :: ("bullets".data ++ ['"'])
  if pat.isPrefixOf l then
    let r1 := l.drop pat.length
    let r2 := r1.drop ((r1.takeWhile isPyWs).length)
    match r2 with
    | ':' :: r3 =>
      let r4 := r3.drop ((r3.takeWhile isPyWs).length)
      match r4 with
      | '[' :: r5 =>
        let content := r5.takeWhile (fun c => c ≠ ']')
        if content = [] then none
        else
          match r5.drop content.length with
          | ']' :: _ => some (String.mk content)
          | _ => none
      | _ => none
    | _ => none
  else none

/-- `re.search(r'"bullets"\s*:\s*\[([^\]]+)\]', output)`. -/
def searchBullets : List Char → Option String
  | [] => none
  | c :: rest =>
    match matchBulletsAt (c :: rest) with
    | some s => some s
    | none => searchBullets rest

/-- Python `b.strip(' "')`. -/
def stripSpaceQuote (s : String) : String :=
  let p := fun c => c = ' ' || c = '"'
  String.mk (((s.data.dropWhile p).reverse.dropWhile p).reverse)

/-- `ArticleTransformer._parse_response(output, threshold, original_title)`.
`jsonDecode` models `json.loads` (`none` = `json.JSONDecodeError`);
`strToFloat` models `float(str)`.  A `.error` result is an exception
escaping `_parse_response` (only `JSONDecodeError` is caught there —
`TypeError` / `ValueError` / `AttributeError` from the field handling
propagate to `transform`'s own handler). -/
def trParseResponse (jsonDecode : String → Option Json)
    (strToFloat : String → Option ℚ)
    (output : String) (threshold : ℚ) (originalTitle : String) :
    Except PyErr TrParsed :=
  match jsonDecode (stripFences output) with
  | some (Json.obj fields) =>
    match jsonSlice (jGetD fields "title" (.str originalTitle)) 100 with
    | .error e => .error e
    | .ok titleJ =>
      let bullets := jGetD fields "bullets" (.arr [])
      match jsonSlice (jGetD fields "summary" (.str "No summary available")) 1000 with
      | .error e => .error e
      | .ok summaryJ =>
        match validateCategoryJ (jGetD fields "category" (.str "General")) with
        | .error e => .error e
        | .ok category0 =>
          match pyFloat strToFloat (jGetD fields "confidence" (.num 0.5)) with
          | .error e => .error e
          | .ok confidence =>
            let category :=
              if confidence < threshold ∧ category0 ≠ "General" then "General"
              else category0
            .ok ⟨titleJ, bullets, summaryJ, category⟩
  | some _ =>
    -- `parsed.get` on a non-dict raises AttributeError (uncaught).
    .error (.attributeError "object has no attribute get")
  | none =>
    -- JSONDecodeError: regex fallback extraction.
    let cs := output.data
    let titleM := searchKeyStr "title" cs
    let bulletsM := searchBullets cs
    let summaryM := searchKeyStr "summary" cs
    let categoryM := searchKeyStr "category" cs
    match titleM, summaryM, categoryM with
    | some t, some s, some c =>
      let bullets :=
        match bulletsM with
        | some bs => ((bs.data.splitOnP (fun ch => ch = ',')).map String.mk).map stripSpaceQuote
        | none => []
      .ok ⟨.str (pyTake t 100),
           .arr ((if bullets = [] then [] else bullets).map Json.str),
           .str (pyTake s 1000),
           validateCategory c⟩
    | _, _, _ =>
      -- all parsing strategies failed: defaults.
      .ok ⟨.str originalTitle, .arr [], .str "Unable to generate summary", "General"⟩

/-- The prompt `transform` hands to `_call_api` (preprocessed title and
text spliced into `_build_prompt`). -/
def transformPrompt (cfg : Config) (floatRepr : ℚ → String)
    (title articleText : String) (threshold : ℚ) : String :=
  buildPrompt floatRepr (preprocessText cfg.maxTextLength title)
    (preprocessText cfg.maxTextLength articleText) threshold

/-- `ArticleTransformer.transform(title, article_text, threshold)`.
The outer `try`/`except Exception` means every failure — transport
failure from the rotation loop as well as an uncaught parse exception —
is converted into the fallback tuple
`(title, [], "Error generating summary: " + str(e), "General")`;
nothing propagates to the caller. -/
def transform (cfg : Config) (api : String → String → Except String String)
    (jsonDecode : String → Option Json) (strToFloat : String → Option ℚ)
    (floatRepr : ℚ → String) (now : Nat) (st : State)
    (title articleText : String) (thresholdArg : Option ℚ) :
    State × (Json × Json × Json × String) :=
  let threshold := thresholdArg.getD cfg.defaultThreshold
  let cleanedTitle := preprocessText cfg.maxTextLength title
  let prompt := transformPrompt cfg floatRepr title articleText threshold
  match callApi cfg (fun m => api m prompt) now st with
  | (st', .error e) =>
    (st', (.str title, .arr [], .str ("Error generating summary: " ++ e), "General"))
  | (st', .ok raw) =>
    match trParseResponse jsonDecode strToFloat raw threshold cleanedTitle with
    | .error pe =>
      (st', (.str title, .arr [], .str ("Error generating summary: " ++ pe.text), "General"))
    | .ok r => (st', (r.title, r.bullets, r.summary, r.category))

end Transformer

namespace Materiality

/-- `MaterialityConfig` (src/stream/materiality_filter.py). -/
structure Config where
  materialThreshold : ℚ
  borderlineThreshold : ℚ
  maxTextLength : Nat
  temperature : ℚ
  maxTokens : Nat

/-- `MaterialityConfig()` dataclass defaults. -/
def defaultConfig : Config :=
  { materialThreshold := 0.6
    borderlineThreshold := 0.4
    maxTextLength := 500
    temperature := 0.05
    maxTokens := 256 }

/-- `MaterialityResult`.  `reason` is whatever JSON value the model put
there (Python stores it untyped). -/
structure Result where
  isMaterial : Bool
  score : ℚ
  reason : Json
  isBorderline : Bool

/-- The fail-open result built in the `except` clause of
`_parse_response`. -/
def failOpen : Result :=
  { isMaterial := true
    score := 0.5
    reason := .str "Parse failure - defaulting to material"
    isBorderline := false }

/-- The cleaning pipeline at the top of
`MaterialityFilter._parse_response`: strip markdown fences, strip
whitespace, and cut down to the outermost brace span when one exists. -/
def extractJsonSpan (output : String) : String :=
  let cleaned := pyStrip (stripFences output)
  let cs := cleaned.data
  match cs.findIdx? (fun c => c = '{'), (cs.reverse.findIdx? (fun c => c = '}')) with
  | some jsonStart, some revEnd =>
    let jsonEnd := cs.length - 1 - revEnd
    if jsonStart < jsonEnd then
      String.mk ((cs.drop jsonStart).take (jsonEnd + 1 - jsonStart))
    else cleaned
  | _, _ => cleaned

/-- `MaterialityFilter._parse_response(output)`.  The `except` clause
catches exactly `(json.JSONDecodeError, ValueError, KeyError)` and
returns the fail-open result; `TypeError` (e.g. `float(None)`) and
`AttributeError` (`.get` on a decoded non-dict) are not in the tuple and
escape as `.error`. -/
def parseResponse (jsonDecode : String → Option Json)
    (strToFloat : String → Option ℚ) (cfg : Config) (output : String) :
    Except PyErr Result :=
  match jsonDecode (extractJsonSpan output) with
  | none => .ok failOpen
  | some (Json.obj fields) =>
    match pyFloat strToFloat (jGetD fields "materiality_score" (.num 0.5)) with
    | .error (.valueError _) => .ok failOpen
    | .error e => .error e
    | .ok q =>
      let score := max 0 (min 1 q)
      let isMaterial := decide (cfg.materialThreshold ≤ score)
      let isBorderline := !isMaterial && decide (cfg.borderlineThreshold ≤ score)
      .ok { isMaterial := isMaterial
            score := score
            reason := jGetD fields "reason" (.str "No reason provided")
            isBorderline := isBorderline }
  | some _ => .error (.attributeError "object has no attribute get")

/-- `MaterialityFilter._build_prompt(title, text)`. -/
def buildPrompt (title text : String) : String :=
  "You are a financial materiality analyst. Assess whether this press release describes a MATERIAL event that could meaningfully impact a company's stock price or business fundamentals.\n\n"
  ++ "MATERIAL events include: earnings results, revenue guidance changes, M&A activity, executive changes, FDA approvals/rejections, activist campaigns, significant contract wins/losses, restructuring, lawsuits, offerings, clinical trial results, regulatory actions, spin-offs, buybacks, dividend changes.\n\n"
  ++ "IMMATERIAL events include: marketing campaigns, conference attendance, product webinars, CSR/sustainability reports, routine hiring announcements, award wins, minor partnerships, holiday greetings, routine product updates without financial impact.\n\n"
  ++ "PRESS RELEASE TITLE: " ++ title ++ "\n\n"
  ++ "PRESS RELEASE TEXT (excerpt):\n" ++ text ++ "\n\n"
  ++ "Respond ONLY with valid JSON:\n"
  ++ "\x7b\n"
  ++ "  \"materiality_score\": 0.85,\n"
  ++ "  \"is_material\": true,\n"
  ++ "  \"reason\": \"Brief one-sentence explanation\"\n"
  ++ "\x7d"

/-- Errors escaping `MaterialityFilter.assess`: a transport failure from
the pool call, or an uncaught parse exception. -/
inductive AssessErr where
  | transport (e : String)
  | py (e : PyErr)

/-- `MaterialityFilter.assess(title, article_text)`: truncate, prompt,
call the shared pool at the filter's temperature and token budget, then
parse. -/
def assess (poolCfg : GroqPool.Config)
    (rawApi : String → String → ℚ → Nat → Except String String) (now : Nat)
    (cfg : Config) (jsonDecode : String → Option Json)
    (strToFloat : String → Option ℚ) (st : GroqPool.State)
    (title articleText : String) :
    GroqPool.State × Except AssessErr Result :=
  let truncated :=
    if articleText = "" then ""
    else String.mk ((pyJoinSplit articleText).data.take cfg.maxTextLength)
  let prompt := buildPrompt title truncated
  match GroqPool.call poolCfg rawApi now st prompt (some cfg.temperature)
      (some cfg.maxTokens) with
  | (st', .error e) => (st', .error (.transport e))
  | (st', .ok (raw, _)) =>
    (st', (parseResponse jsonDecode strToFloat cfg raw).mapError .py)

end Materiality

namespace Feed

/-- One entry of a feedparser result (`feed.entries[i]`): every field the
reader touches, each possibly absent.  `publishedParsed` is the epoch
second value of `calendar.timegm(entry.published_parsed)` when the entry
carries a parsable date. -/
structure Entry where
  id : Option String
  link : Option String
  title : Option String
  description : Option String
  publishedParsed : Option Nat

/-- The item dict produced by `FeedReader.fetch_new_items`. -/
structure Item where
  title : String
  link : String
  description : String
  published : Nat
  guid : String
deriving DecidableEq

/-- `entry.get('id') or entry.get('link', '')` — Python `or` falls
through on a missing **or empty** id. -/
def entryGuid (e : Entry) : String :=
  match e.id with
  | some s => if s = "" then e.link.getD "" else s
  | none => e.link.getD ""

/-- `FeedReader._parse_timestamp(entry)`: epoch milliseconds, defaulting
to the current time (`now`, seconds) when the entry has no date. -/
def parseTimestamp (now : Nat) (e : Entry) : Nat :=
  match e.publishedParsed with
  | some t => t * 1000
  | none => now * 1000

/-- The entry loop of `FeedReader.fetch_new_items`: skip guids already
in `seen_guids`, otherwise add the guid to the seen set **before**
appending the item to the returned batch. -/
def fetchLoop (now : Nat) : List String → List Entry → List String × List Item
  | seen, [] => (seen, [])
  | seen, e :: es =>
    let guid := entryGuid e
    if guid ∈ seen then fetchLoop now seen es
    else
      let item : Item :=
        { title := e.title.getD ""
          link := e.link.getD ""
          description := e.description.getD ""
          published := parseTimestamp now e
          guid := guid }
      let (seen', items) := fetchLoop now (guid :: seen) es
      (seen', item :: items)

/-- `FeedReader.fetch_new_items()` on a feed whose parsed entry list is
`entries` (an empty or unparsable feed yields the empty entry list and
hits the early return, which coincides with the loop on `[]`). -/
def fetchNewItems (now : Nat) (seen : List String) (entries : List Entry) :
    List String × List Item :=
  fetchLoop now seen entries

/-- Repeated `fetch_new_items()` calls on one `FeedReader` instance:
thread the `seen_guids` set through a sequence of feed snapshots and
collect each call's batch. -/
def runCalls (now : Nat) : List String → List (List Entry) →
    List String × List (List Item)
  | seen, [] => (seen, [])
  | seen, entries :: rest =>
    let (seen', items) := fetchNewItems now seen entries
    let (seenFinal, batches) := runCalls now seen' rest
    (seenFinal, items :: batches)

end Feed

namespace Provider

/-- Attempted match of `\((NYSE|NASDAQ):\s*([A-Z]{1,5})\)` at the head of
`l`; on success returns group 2 and the length of the whole match.  The
alternatives have disjoint prefixes, the characters of `\s*` and
`[A-Z]{1,5}` are disjoint from their successors, and the greedy
`[A-Z]{1,5}` must consume the whole uppercase run (anything shorter is
followed by another uppercase letter, not `)`), so maximal-munch equals
the backtracking semantics of `re`.  `afterExchange` handles the part
after the exchange-name alternation: `:\s*([A-Z]{1,5})\)`. -/
def afterExchange (ex : String) (r1 : List Char) : Option (String × Nat) :=
  match r1.drop ex.length with
  | [] => none
  | c1 :: r3 =>
    if c1 = ':' then
      let w := r3.takeWhile isPyWs
      let r4 := r3.dropWhile isPyWs
      let sym := r4.takeWhile isUpperAZ
      if 1 ≤ sym.length ∧ sym.length ≤ 5 then
        match r4.dropWhile isUpperAZ with
        | c2 :: _ =>
          if c2 = ')' then
            some (String.mk sym, 1 + ex.length + 1 + w.length + sym.length + 1)
          else none
        | [] => none
      else none
    else none

def matchTickerAt (l : List Char) : Option (String × Nat) :=
  match l with
  | [] => none
  | c0 :: r1 =>
    if c0 = '(' then
      if ("NYSE".data).isPrefixOf r1 then afterExchange "NYSE" r1
      else if ("NASDAQ".data).isPrefixOf r1 then afterExchange "NASDAQ" r1
      else none
    else none

/-- `re.findall` scan for the ticker pattern: at each position try a
match; on success record group 2 and resume after the match, otherwise
advance one character. -/
def findTickersAux : List Char → Nat → List String
  | _, 0 => []
  | [], _ => []
  | c :: rest, fuel + 1 =>
    match matchTickerAt (c :: rest) with
    | some (sym, len) => sym :: findTickersAux ((c :: rest).drop len) fuel
    | none => findTickersAux rest fuel

/-- `BaseProvider._extract_tickers(text)`:
`list({symbol for _exchange, symbol in re.findall(...)})`.  The Python
set comprehension deduplicates with unspecified iteration order; the
model uses `List.dedup` (the claims are order-independent). -/
def extractTickers (text : String) : List String :=
  (findTickersAux text.data text.data.length).dedup

end Provider

namespace Orch

/-- The article dict assembled by a provider's `parse_article`
(`BaseProvider._build_article_dict`). -/
structure ArticleData where
  url : String
  title : String
  timestamp : Option Nat
  provider : String
  providerUrl : String
  imageUrl : Option String
  articleText : String
  tickers : List String
deriving DecidableEq

/-- The enriched dict handed to `StorageService.save_article` after
step 4 of `Orchestrator._process_article`. -/
structure FinalArticle where
  url : String
  title : String
  timestamp : Option Nat
  provider : String
  providerUrl : String
  imageUrl : Option String
  articleText : String
  tickers : List String
  bullets : List String
  summary : String
  topics : List String
  extractedAt : String
deriving DecidableEq

/-- Observable outcome of one `Orchestrator._process_article` step:
the shared processed-URL set afterwards, the boolean the method returns,
the article posted to storage (if any), and whether the transformer was
invoked. -/
structure ProcResult where
  processed : List String
  saved : Bool
  stored : Option FinalArticle
  transformCalled : Bool
deriving DecidableEq

/-- `Orchestrator._process_article(provider, url, feed_item)`.
Oracles: `fetch` is `http_client.get` (`none` = request failure; an
empty string is also falsy in the `if not html` guard), `parse` is the
provider's `parse_article`, `transformO` is the outcome of the
`self.transformer.transform` call (`.error` = exception caught by the
step-4 handler), `save` is `storage.save_article`, and `nowIso` is
`datetime.now().isoformat()`.  `processed` is the shared
`self.processed_urls` set, modelled as a list with set membership. -/
def processArticle (fetch : String → Option String)
    (parse : String → String → Feed.Item → Option ArticleData)
    (transformO : String → String → Except String (String × List String × String × String))
    (save : FinalArticle → Bool) (nowIso : String)
    (processed : List String) (url : String) (feedItem : Feed.Item) :
    ProcResult :=
  match fetch url with
  | none => ⟨processed, false, none, false⟩
  | some html =>
    if html = "" then ⟨processed, false, none, false⟩
    else
      match parse url html feedItem with
      | none => ⟨processed, false, none, false⟩
      | some articleData =>
        if articleData.tickers = [] then
          -- step 3: skip and mark processed to avoid re-fetching noise
          ⟨url :: processed, false, none, false⟩
        else
          let enriched :=
            match transformO articleData.title articleData.articleText with
            | .ok (t, bullets, summary, topic) => (t, bullets, summary, [topic])
            | .error _ =>
              let text := articleData.articleText
              (articleData.title, [],
               if 500 < text.data.length then pyTake text 500 ++ "..." else text,
               ["General"])
          let fa : FinalArticle :=
            { url := articleData.url
              title := enriched.1
              timestamp := articleData.timestamp
              provider := articleData.provider
              providerUrl := articleData.providerUrl
              imageUrl := articleData.imageUrl
              articleText := articleData.articleText
              tickers := articleData.tickers
              bullets := enriched.2.1
              summary := enriched.2.2.1
              topics := enriched.2.2.2
              extractedAt := nowIso }
          let saved := save fa
          ⟨if saved then url :: processed else processed, saved, some fa, true⟩

end Orch

/-! Concrete fixtures: explicit oracle instantiations used by the
closed-theorem evaluations below. -/

/-- A `json.loads` oracle that fails on every input. -/
def decodeNone : String → Option Json := fun _ => none

/-- A `float(str)` oracle that rejects every string. -/
def sfNone : String → Option ℚ := fun _ => none

/-- A fixed float-rendering oracle for prompt construction. -/
def frDefault : ℚ → String := fun _ => "0.3"

/-- Two-model pool configuration with rotation enabled. -/
def fxPoolCfg : GroqPool.Config :=
  { models := ["alpha", "beta"]
    temperature := 0.1
    maxTokens := 1024
    enableModelRotation := true }

/-- Completion oracle: "alpha" is rate-limited, "beta" answers. -/
def fxApiRotate : String → String → ℚ → Nat → Except String String :=
  fun m _ _ _ =>
    if m = "alpha" then .error "Error code: 429 - Rate limit reached"
    else .ok " All good. "

/-- Completion oracle: "alpha" answers immediately. -/
def fxApiOk : String → String → ℚ → Nat → Except String String :=
  fun m _ _ _ => if m = "alpha" then .ok "hello" else .error "nope"

/-- Completion oracle: every model fails with a non-rate-limit error. -/
def fxApiServerErr : String → String → ℚ → Nat → Except String String :=
  fun _ _ _ _ => .error "500 internal server error"

/-- A model response with a valid JSON body, category "M&A" and
confidence 0.2. -/
def fxC2Resp : String :=
  "\x7b\"title\": \"Deal announced\", \"bullets\": [\"point one\", \"point two\"], \"summary\": \"Company X buys Y.\", \"category\": \"M&A\", \"confidence\": 0.2\x7d"

/-- The decoded value of `fxC2Resp`. -/
def fxC2Obj : Json :=
  .obj [("title", .str "Deal announced"),
        ("bullets", .arr [.str "point one", .str "point two"]),
        ("summary", .str "Company X buys Y."),
        ("category", .str "M&A"),
        ("confidence", .num 0.2)]

/-- `json.loads` oracle for `fxC2Resp`. -/
def fxC2Decode : String → Option Json :=
  fun s => if s = fxC2Resp then some fxC2Obj else none

/-- Completion oracle that always returns `fxC2Resp`. -/
def fxC2Api : String → String → Except String String := fun _ _ => .ok fxC2Resp

/-- A model response whose JSON is valid but whose materiality score is
`null`. -/
def fxC3Out : String := "\x7b\"materiality_score\": null\x7d"

/-- `json.loads` oracle for `fxC3Out`. -/
def fxC3Decode : String → Option Json :=
  fun s => if s = fxC3Out then some (.obj [("materiality_score", .null)]) else none

/-- Single-model transformer configuration. -/
def fxC6Cfg : Transformer.Config :=
  { models := ["modelA"]
    temperature := 0.1
    maxTokens := 500
    retryAttempts := 3
    defaultThreshold := 0.3
    maxTextLength := 2000
    enableModelRotation := true }

/-- Completion oracle failing with a transport (non-rate-limit) error. -/
def fxC6Api : String → String → Except String String :=
  fun _ _ => .error "connection refused"

/-- Page-fetch oracle that always succeeds. -/
def fxFetch : String → Option String :=
  fun _ => some "<html><body>release</body></html>"

/-- Provider parse oracle returning `None`. -/
def fxParseNone : String → String → Feed.Item → Option Orch.ArticleData :=
  fun _ _ _ => none

/-- A parsed article with no recognised tickers. -/
def fxAdNoTickers : Orch.ArticleData :=
  { url := "http://x.test/a"
    title := "T"
    timestamp := some 0
    provider := "PR Newswire"
    providerUrl := "http://x.test/a"
    imageUrl := none
    articleText := "body"
    tickers := [] }

/-- The same parsed article with one ticker. -/
def fxAdTickers : Orch.ArticleData := { fxAdNoTickers with tickers := ["AAPL"] }

/-- Provider parse oracle returning the ticker-less article. -/
def fxParseNoTickers : String → String → Feed.Item → Option Orch.ArticleData :=
  fun _ _ _ => some fxAdNoTickers

/-- Provider parse oracle returning the tickered article. -/
def fxParseTickers : String → String → Feed.Item → Option Orch.ArticleData :=
  fun _ _ _ => some fxAdTickers

/-- Transformer-outcome oracle that succeeds. -/
def fxTransformOk :
    String → String → Except String (String × List String × String × String) :=
  fun _ _ => .ok ("Refined", ["b1", "b2"], "Sum", "M&A")

/-- Storage oracle that accepts every article. -/
def fxSaveTrue : Orch.FinalArticle → Bool := fun _ => true

/-- Storage oracle that rejects every article. -/
def fxSaveFalse : Orch.FinalArticle → Bool := fun _ => false

/-- A feed item for the orchestrator fixtures. -/
def fxItem : Feed.Item :=
  { title := "T", link := "http://x.test/a", description := "", published := 0,
    guid := "g1" }

/-- A feed entry whose guid is already known. -/
def fxEntryOld : Feed.Entry :=
  { id := some "old-guid", link := some "http://f/1", title := some "Old",
    description := some "", publishedParsed := some 100 }

/-- A feed entry with a fresh guid. -/
def fxEntryNew : Feed.Entry :=
  { id := some "new-guid", link := some "http://f/2", title := some "New",
    description := some "", publishedParsed := none }

/-- The shape of one complete ticker-pattern match inside the scanned
text: `(EX:<ws><SYM>)`. -/
def tickerPattern (ex : String) (w : List Char) (sym : String) : List Char :=
  '(' :: (ex.data ++ ':' :: (w ++ (sym.data ++ [')'])))

/-- Text containing the `(NYSE:AAPL)` pattern twice. -/
def fxTickerText : String :=
  "Apple (NYSE:AAPL) rose while (NYSE:AAPL) was bought."

/-- The item built from `fxEntryNew` by `fetch_new_items` at time 0. -/
def fxItemNew : Feed.Item :=
  { title := "New", link := "http://f/2", description := "",
    published := 0, guid := "new-guid" }

/-! ## Theorems -/

/-- C7: As stated the claim is false — the transformer's canonical
taxonomy entry is the space form "Spin offs" and `_validate_category`
has no alias table: "Spin offs" maps to itself, not to "Spin-offs"
(and the hyphen form, absent from `categories`, is demoted to
"General"). -/
theorem c7_counterexample :
    Transformer.validateCategory "Spin offs" = "Spin offs" ∧
    Transformer.validateCategory "spin OFFS" = "Spin offs" ∧
    Transformer.validateCategory "Spin offs" ≠ "Spin-offs" ∧
    Transformer.validateCategory "Spin-offs" = "General" := by
  refine ⟨by decide, by decide, by decide, by decide⟩

/-- C7 (amended): `_validate_category` maps every case variant of
"Spin offs" to the canonical list entry "Spin offs" (not "Spin-offs"),
and maps every string that case-insensitively matches no taxonomy
category to "General". -/
theorem c7_category_validation :
    (∀ s : String, pyLower s = "spin offs" →
      Transformer.validateCategory s = "Spin offs") ∧
    (∀ s : String, (∀ c ∈ Transformer.categories, pyLower c ≠ pyLower s) →
      Transformer.validateCategory s = "General") := by
  constructor
  · intro s hs
    unfold Transformer.validateCategory
    by_cases hmem : s ∈ Transformer.categories
    · rw [if_pos hmem]
      simp only [Transformer.categories, List.mem_cons, List.mem_singleton,
        List.not_mem_nil, or_false] at hmem
      rcases hmem with h | h | h | h | h | h | h | h <;> subst h <;>
        first
        | rfl
        | exact absurd hs (by decide)
    · rw [if_neg hmem]
      simp only [hs]
      decide
  · intro s hall
    unfold Transformer.validateCategory
    have hmem : s ∉ Transformer.categories := by
      intro hs
      exact hall s hs rfl
    rw [if_neg hmem]
    have hfind : Transformer.categories.find?
        (fun v => pyLower v == pyLower s) = none := by
      rw [List.find?_eq_none]
      intro x hx
      simpa using hall x hx
    rw [hfind]

/-- C7 witness: concrete inputs for both halves of the amended claim. -/
theorem c7_witness :
    (pyLower "SPIN OFFS" = "spin offs" ∧
      Transformer.validateCategory "SPIN OFFS" = "Spin offs") ∧
    ((∀ c ∈ Transformer.categories, pyLower c ≠ pyLower "Earnings") ∧
      Transformer.validateCategory "Earnings" = "General") :=
  ⟨⟨by decide, c7_category_validation.1 "SPIN OFFS" (by decide)⟩,
   ⟨by decide, c7_category_validation.2 "Earnings" (by decide)⟩⟩

/-- A match of the post-exchange fragment `:\s*([A-Z]{1,5})\)` implies
the scanned suffix literally decomposes into that fragment. -/
theorem afterExchange_sound {ex sym : String} {r1 : List Char} {len : Nat}
    (h : Provider.afterExchange ex r1 = some (sym, len)) :
    ∃ w rest, (∀ c ∈ w, isPyWs c = true) ∧ 1 ≤ sym.length ∧ sym.length ≤ 5 ∧
      (∀ c ∈ sym.data, isUpperAZ c = true) ∧
      r1.drop ex.length = ':' :: (w ++ (sym.data ++ ')' :: rest)) := by
  unfold Provider.afterExchange at h
  split at h
  · exact absurd h (by simp)
  · rename_i c1 r3 heq
    simp only [] at h
    split at h
    · rename_i hc1
      split at h
      · rename_i hlen
        split at h
        · rename_i c2 rest2 heq2
          split at h
          · rename_i hc2
            obtain ⟨hsym, -⟩ := Prod.mk.injEq .. ▸ Option.some.injEq .. ▸ h
            subst hsym hc1 hc2
            refine ⟨r3.takeWhile isPyWs, rest2, fun c hc => List.mem_takeWhile_imp hc,
              ?_, ?_, fun c hc => List.mem_takeWhile_imp hc, ?_⟩
            · exact hlen.1
            · exact hlen.2
            · rw [heq]
              congr 1
              calc r3 = r3.takeWhile isPyWs ++ r3.dropWhile isPyWs :=
                    (List.takeWhile_append_dropWhile isPyWs r3).symm
                _ = r3.takeWhile isPyWs ++
                      ((String.mk ((r3.dropWhile isPyWs).takeWhile isUpperAZ)).data ++
                        ')' :: rest2) := by
                    rw [← heq2]
                    congr 1
                    exact (List.takeWhile_append_dropWhile isUpperAZ _).symm
          · exact absurd h (by simp)
        · exact absurd h (by simp)
      · exact absurd h (by simp)
    · exact absurd h (by simp)

/-- A match of the whole ticker regex at a position implies the scanned
suffix starts with a literal `(EX:<ws><SYM>)` block. -/
theorem matchTickerAt_sound {l : List Char} {sym : String} {len : Nat}
    (h : Provider.matchTickerAt l = some (sym, len)) :
    ∃ ex w rest, (ex = "NYSE" ∨ ex = "NASDAQ") ∧ (∀ c ∈ w, isPyWs c = true) ∧
      1 ≤ sym.length ∧ sym.length ≤ 5 ∧ (∀ c ∈ sym.data, isUpperAZ c = true) ∧
      l = tickerPattern ex w sym ++ rest := by
  unfold Provider.matchTickerAt at h
  split at h
  · exact absurd h (by simp)
  · rename_i c0 r1
    split at h
    · rename_i hc0
      subst hc0
      split at h
      · rename_i hpre
        obtain ⟨t, ht⟩ := List.isPrefixOf_iff_prefix.mp hpre
        obtain ⟨w, rest, hw, h1, h5, hchar, hdec⟩ := afterExchange_sound h
        rw [← ht, show ("NYSE" : String).length = ("NYSE".data).length from rfl,
          List.drop_left] at hdec
        refine ⟨"NYSE", w, rest, Or.inl rfl, hw, h1, h5, hchar, ?_⟩
        rw [← ht, hdec]
        simp [tickerPattern]
      · split at h
        · rename_i hpre
          obtain ⟨t, ht⟩ := List.isPrefixOf_iff_prefix.mp hpre
          obtain ⟨w, rest, hw, h1, h5, hchar, hdec⟩ := afterExchange_sound h
          rw [← ht, show ("NASDAQ" : String).length = ("NASDAQ".data).length from rfl,
            List.drop_left] at hdec
          refine ⟨"NASDAQ", w, rest, Or.inr rfl, hw, h1, h5, hchar, ?_⟩
          rw [← ht, hdec]
          simp [tickerPattern]
        · exact absurd h (by simp)
    · exact absurd h (by simp)

/-- Everything the `findall` scan returns originates from a literal
ticker-pattern occurrence in the scanned text. -/
theorem findTickersAux_sound : ∀ (fuel : Nat) (l : List Char) (s : String),
    s ∈ Provider.findTickersAux l fuel →
    ∃ ex w pre post, (ex = "NYSE" ∨ ex = "NASDAQ") ∧
      (∀ c ∈ w, isPyWs c = true) ∧ 1 ≤ s.length ∧ s.length ≤ 5 ∧
      (∀ c ∈ s.data, isUpperAZ c = true) ∧
      pre ++ (tickerPattern ex w s ++ post) = l := by
  intro fuel
  induction fuel with
  | zero => intro l s hs; simp [Provider.findTickersAux] at hs
  | succ n ih =>
    intro l s hs
    match l with
    | [] => simp [Provider.findTickersAux] at hs
    | c :: rest =>
      rw [Provider.findTickersAux] at hs
      cases hm : Provider.matchTickerAt (c :: rest) with
      | none =>
        rw [hm] at hs
        obtain ⟨ex, w, pre, post, hex, hw, h1, h5, hchar, hdec⟩ := ih rest s hs
        exact ⟨ex, w, c :: pre, post, hex, hw, h1, h5, hchar, by rw [← hdec]; rfl⟩
      | some p =>
        obtain ⟨sym, len⟩ := p
        rw [hm] at hs
        rcases List.mem_cons.mp hs with rfl | hs'
        · obtain ⟨ex, w, rest', hex, hw, h1, h5, hchar, hdec⟩ := matchTickerAt_sound hm
          exact ⟨ex, w, [], rest', hex, hw, h1, h5, hchar, by rw [← hdec]; rfl⟩
        · obtain ⟨ex, w, pre, post, hex, hw, h1, h5, hchar, hdec⟩ :=
            ih ((c :: rest).drop len) s hs'
          refine ⟨ex, w, (c :: rest).take len ++ pre, post, hex, hw, h1, h5, hchar, ?_⟩
          rw [List.append_assoc, hdec, List.take_append_drop]

/-- C9: ticker extraction returns each symbol at most once; the doubled
`(NYSE:AAPL)` text yields exactly `["AAPL"]`; and every returned symbol
comes from a literal `(NYSE:...)` / `(NASDAQ:...)` occurrence with an
uppercase 1–5 character symbol. -/
theorem c9_ticker_extraction :
    (∀ t : String, (Provider.extractTickers t).Nodup) ∧
    Provider.extractTickers fxTickerText = ["AAPL"] ∧
    (∀ (t s : String), s ∈ Provider.extractTickers t →
      ∃ ex w pre post, (ex = "NYSE" ∨ ex = "NASDAQ") ∧
        (∀ c ∈ w, isPyWs c = true) ∧ 1 ≤ s.length ∧ s.length ≤ 5 ∧
        (∀ c ∈ s.data, isUpperAZ c = true) ∧
        pre ++ (tickerPattern ex w s ++ post) = t.data) := by
  refine ⟨fun t => List.nodup_dedup _, by decide, fun t s hs => ?_⟩
  exact findTickersAux_sound _ _ _ (List.mem_dedup.mp hs)

/-- C9 witness: the doubled-`(NYSE:AAPL)` text, with the pattern-origin
conjunct instantiated at its one returned symbol. -/
theorem c9_witness :
    ("AAPL" ∈ Provider.extractTickers fxTickerText) ∧
    (∃ ex w pre post, (ex = "NYSE" ∨ ex = "NASDAQ") ∧
      (∀ c ∈ w, isPyWs c = true) ∧ 1 ≤ ("AAPL" : String).length ∧
      ("AAPL" : String).length ≤ 5 ∧
      (∀ c ∈ ("AAPL" : String).data, isUpperAZ c = true) ∧
      pre ++ (tickerPattern ex w "AAPL" ++ post) = fxTickerText.data) :=
  ⟨by decide, c9_ticker_extraction.2.2 fxTickerText "AAPL" (by decide)⟩

/-- Single-pass properties of the `fetch_new_items` entry loop: the
returned batch has pairwise-distinct guids, every returned guid has been
added to the seen set, no returned guid was seen before, and the seen
set only grows. -/
theorem fetchLoop_props (now : Nat) :
    ∀ (entries : List Feed.Entry) (seen : List String),
      ((Feed.fetchLoop now seen entries).2.map Feed.Item.guid).Nodup ∧
      (∀ it ∈ (Feed.fetchLoop now seen entries).2,
        it.guid ∈ (Feed.fetchLoop now seen entries).1) ∧
      (∀ it ∈ (Feed.fetchLoop now seen entries).2, it.guid ∉ seen) ∧
      (∀ g ∈ seen, g ∈ (Feed.fetchLoop now seen entries).1) := by
  intro entries
  induction entries with
  | nil =>
    intro seen
    refine ⟨by simp [Feed.fetchLoop], by simp [Feed.fetchLoop],
      by simp [Feed.fetchLoop], by simp [Feed.fetchLoop]⟩
  | cons e es ih =>
    intro seen
    by_cases hg : Feed.entryGuid e ∈ seen
    · have hred : Feed.fetchLoop now seen (e :: es) = Feed.fetchLoop now seen es := by
        simp [Feed.fetchLoop, hg]
      rw [hred]
      exact ih seen
    · obtain ⟨ha, hb, hc, hd⟩ := ih (Feed.entryGuid e :: seen)
      have hred : Feed.fetchLoop now seen (e :: es) =
          ((Feed.fetchLoop now (Feed.entryGuid e :: seen) es).1,
            { title := e.title.getD ""
              link := e.link.getD ""
              description := e.description.getD ""
              published := Feed.parseTimestamp now e
              guid := Feed.entryGuid e } ::
              (Feed.fetchLoop now (Feed.entryGuid e :: seen) es).2) := by
        simp [Feed.fetchLoop, hg]
      rw [hred]
      refine ⟨?_, ?_, ?_, ?_⟩
      · simp only [List.map_cons, List.nodup_cons]
        refine ⟨?_, ha⟩
        intro hmem
        obtain ⟨it, hit, hguid⟩ := List.mem_map.mp hmem
        exact hc it hit (hguid ▸ List.mem_cons_self _ _)
      · intro it hit
        rcases List.mem_cons.mp hit with rfl | hit'
        · exact hd _ (List.mem_cons_self _ _)
        · exact hb it hit'
      · intro it hit
        rcases List.mem_cons.mp hit with rfl | hit'
        · exact hg
        · exact fun hin => hc it hit' (List.mem_cons_of_mem _ hin)
      · intro g hgseen
        exact hd g (List.mem_cons_of_mem _ hgseen)

/-- Across a sequence of `fetch_new_items` calls the concatenation of
all batches still has pairwise-distinct guids; every returned guid ends
up in the final seen set and none was in the initial one. -/
theorem runCalls_props (now : Nat) :
    ∀ (feeds : List (List Feed.Entry)) (seen : List String),
      (((Feed.runCalls now seen feeds).2.flatten.map Feed.Item.guid).Nodup) ∧
      (∀ it ∈ (Feed.runCalls now seen feeds).2.flatten,
        it.guid ∈ (Feed.runCalls now seen feeds).1) ∧
      (∀ it ∈ (Feed.runCalls now seen feeds).2.flatten, it.guid ∉ seen) ∧
      (∀ g ∈ seen, g ∈ (Feed.runCalls now seen feeds).1) := by
  intro feeds
  induction feeds with
  | nil =>
    intro seen
    refine ⟨by simp [Feed.runCalls], by simp [Feed.runCalls],
      by simp [Feed.runCalls], by simp [Feed.runCalls]⟩
  | cons entries rest ih =>
    intro seen
    obtain ⟨fa, fb, fc, fd⟩ := fetchLoop_props now entries seen
    obtain ⟨ra, rb, rc, rd⟩ := ih (Feed.fetchLoop now seen entries).1
    have hred : Feed.runCalls now seen (entries :: rest) =
        ((Feed.runCalls now (Feed.fetchLoop now seen entries).1 rest).1,
          (Feed.fetchLoop now seen entries).2 ::
            (Feed.runCalls now (Feed.fetchLoop now seen entries).1 rest).2) := by
      simp [Feed.runCalls, Feed.fetchNewItems]
    rw [hred]
    refine ⟨?_, ?_, ?_, ?_⟩
    · simp only [List.flatten_cons, List.map_append]
      rw [List.nodup_append]
      refine ⟨fa, ra, ?_⟩
      intro g hg1 hg2
      obtain ⟨it1, hit1, hgu1⟩ := List.mem_map.mp hg1
      obtain ⟨it2, hit2, hgu2⟩ := List.mem_map.mp hg2
      exact rc it2 hit2 (by rw [hgu2, ← hgu1]; exact fb it1 hit1)
    · intro it hit
      rw [List.flatten_cons] at hit
      rcases List.mem_append.mp hit with h1 | h2
      · exact rd _ (fb it h1)
      · exact rb it h2
    · intro it hit
      rw [List.flatten_cons] at hit
      rcases List.mem_append.mp hit with h1 | h2
      · exact fc it h1
      · exact fun hin => rc it h2 (fd _ hin)
    · intro g hgseen
      exact rd g (fd g hgseen)

/-- C4: one `FeedReader` instance never returns the same guid twice —
within one `fetchNewItems()` batch the guids are pairwise distinct,
every returned guid is in the seen set when the call returns, guids
already seen are filtered out, and across any sequence of calls on a
fresh reader the concatenated batches carry pairwise-distinct guids. -/
theorem c4_feed_guid_uniqueness :
    (∀ (now : Nat) (seen : List String) (entries : List Feed.Entry),
      ((Feed.fetchNewItems now seen entries).2.map Feed.Item.guid).Nodup ∧
      (∀ it ∈ (Feed.fetchNewItems now seen entries).2,
        it.guid ∈ (Feed.fetchNewItems now seen entries).1) ∧
      (∀ it ∈ (Feed.fetchNewItems now seen entries).2, it.guid ∉ seen)) ∧
    (∀ (now : Nat) (feeds : List (List Feed.Entry)),
      ((Feed.runCalls now [] feeds).2.flatten.map Feed.Item.guid).Nodup) := by
  constructor
  · intro now seen entries
    obtain ⟨a, b, c, -⟩ := fetchLoop_props now entries seen
    exact ⟨a, b, c⟩
  · intro now feeds
    exact (runCalls_props now feeds []).1

/-- C4 witness: a reader that already saw "old-guid" returns only the
fresh entry, whose guid is recorded in the seen set and was not seen
before; a two-call sequence replaying the same feed yields globally
distinct guids. -/
theorem c4_witness :
    (fxItemNew ∈ (Feed.fetchNewItems 0 ["old-guid"] [fxEntryOld, fxEntryNew]).2 ∧
      fxItemNew.guid ∈ (Feed.fetchNewItems 0 ["old-guid"] [fxEntryOld, fxEntryNew]).1 ∧
      fxItemNew.guid ∉ ["old-guid"]) ∧
    ((Feed.runCalls 0 []
        [[fxEntryOld, fxEntryNew], [fxEntryOld, fxEntryNew]]).2.flatten.map
          Feed.Item.guid).Nodup := by
  have h := c4_feed_guid_uniqueness.1 0 ["old-guid"] [fxEntryOld, fxEntryNew]
  refine ⟨⟨by decide, h.2.1 fxItemNew (by decide), h.2.2 fxItemNew (by decide)⟩, ?_⟩
  exact c4_feed_guid_uniqueness.2 0 [[fxEntryOld, fxEntryNew], [fxEntryOld, fxEntryNew]]

/-- C5 counterexample: the claim is false for the parse-`None` case —
when the page fetch succeeds but `parse_article` returns `None`,
`_process_article` returns `False` **without** adding the URL to the
shared processed set (only the zero-ticker case marks it). -/
theorem c5_counterexample :
    (Orch.processArticle fxFetch fxParseNone fxTransformOk fxSaveTrue
        "2026-10-12T00:00:00" [] "http://x.test/a" fxItem).processed = [] ∧
    ("http://x.test/a" : String) ∉
      (Orch.processArticle fxFetch fxParseNone fxTransformOk fxSaveTrue
        "2026-10-12T00:00:00" [] "http://x.test/a" fxItem).processed := by
  exact ⟨by decide, by decide⟩

/-- C5 (amended): after a successful page fetch, a parse yielding `None`
drops the item without marking, storing, or classifying; a parse
yielding an article with zero tickers adds the URL to the processed set
and drops the item without storing or classifying. -/
theorem c5_parse_and_ticker_gate :
    ∀ fetch parse transformO save nowIso (processed : List String) url item html,
      fetch url = some html → html ≠ "" →
      ((parse url html item = none →
        Orch.processArticle fetch parse transformO save nowIso processed url item =
          ⟨processed, false, none, false⟩) ∧
       (∀ ad, parse url html item = some ad → ad.tickers = [] →
        Orch.processArticle fetch parse transformO save nowIso processed url item =
          ⟨url :: processed, false, none, false⟩)) := by
  intro fetch parse transformO save nowIso processed url item html hfetch hhtml
  constructor
  · intro hparse
    unfold Orch.processArticle
    simp [hfetch, hhtml, hparse]
  · intro ad hparse htickers
    unfold Orch.processArticle
    simp [hfetch, hhtml, hparse, htickers]

/-- C5 witness: a zero-ticker article gets its URL marked processed and
is dropped before transformation and storage. -/
theorem c5_witness :
    Orch.processArticle fxFetch fxParseNoTickers fxTransformOk fxSaveTrue
        "2026-10-12T00:00:00" [] "http://x.test/a" fxItem =
      ⟨["http://x.test/a"], false, none, false⟩ :=
  (c5_parse_and_ticker_gate fxFetch fxParseNoTickers fxTransformOk fxSaveTrue
      "2026-10-12T00:00:00" [] "http://x.test/a" fxItem
      "<html><body>release</body></html>" rfl (by decide)).2
    fxAdNoTickers rfl rfl

/-- C8: on the full processing path the URL joins the shared processed
set exactly when the store call succeeds; a persistence failure leaves
the set unchanged, so the item can be retried in a later cycle. -/
theorem c8_persistence_gate :
    ∀ fetch parse transformO save nowIso (processed : List String) url item html ad,
      fetch url = some html → html ≠ "" → parse url html item = some ad →
      ad.tickers ≠ [] → url ∉ processed →
      (((Orch.processArticle fetch parse transformO save nowIso processed url
            item).saved = false →
          url ∉ (Orch.processArticle fetch parse transformO save nowIso processed
            url item).processed) ∧
       ((Orch.processArticle fetch parse transformO save nowIso processed url
            item).processed =
          if (Orch.processArticle fetch parse transformO save nowIso processed url
              item).saved then url :: processed else processed)) := by
  intro fetch parse transformO save nowIso processed url item html ad
    hfetch hhtml hparse htickers hnotin
  have hred : ∀ (r : Orch.ProcResult),
      Orch.processArticle fetch parse transformO save nowIso processed url item = r →
      r.processed = (if r.saved then url :: processed else processed) ∨
      (r.processed = processed ∧ r.saved = false) := by
    intro r hr
    unfold Orch.processArticle at hr
    rw [hfetch] at hr
    simp only [hhtml, hparse, htickers, if_neg, ite_false, ne_eq,
      not_false_eq_true] at hr
    subst hr
    left
    rfl
  rcases hred _ rfl with h | ⟨h1, h2⟩
  · constructor
    · intro hsf
      rw [h, hsf]
      simpa using hnotin
    · exact h
  · constructor
    · intro _
      rw [h1]
      exact hnotin
    · rw [h1, h2]
      simp

/-- C8 witness: with a rejecting store the URL stays out of the
processed set. -/
theorem c8_witness :
    ((Orch.processArticle fxFetch fxParseTickers fxTransformOk fxSaveFalse
        "2026-10-12T00:00:00" [] "http://x.test/a" fxItem).saved = false) ∧
    (("http://x.test/a" : String) ∉
      (Orch.processArticle fxFetch fxParseTickers fxTransformOk fxSaveFalse
        "2026-10-12T00:00:00" [] "http://x.test/a" fxItem).processed) :=
  ⟨by decide,
   (c8_persistence_gate fxFetch fxParseTickers fxTransformOk fxSaveFalse
      "2026-10-12T00:00:00" [] "http://x.test/a" fxItem
      "<html><body>release</body></html>" fxAdTickers rfl (by decide) rfl
      (by decide) (by decide)).1 (by decide)⟩

/-- C3 counterexample: not every unparsable materiality score fails
open.  A syntactically valid JSON response whose `materiality_score` is
`null` makes `float(None)` raise `TypeError`, which is **not** in the
caught `(json.JSONDecodeError, ValueError, KeyError)` tuple, so
`_parse_response` (and hence `assess`) raises instead of returning the
fail-open result. -/
theorem c3_counterexample :
    Materiality.parseResponse fxC3Decode sfNone Materiality.defaultConfig fxC3Out =
      .error (.typeError "float() argument must be a string or a number") := by
  rfl

/-- C3 (amended): for a response whose cleaned/brace-extracted text does
not decode as JSON, or decodes to a dict whose `materiality_score` is a
string Python cannot convert to float, `_parse_response` fails open with
`is_material = true`, the fixed default score 0.5, `is_borderline =
false` and a reason flagging the failure.  (Responses decoding to a
non-dict, or carrying a null/list/dict score, instead raise an uncaught
`AttributeError`/`TypeError`.) -/
theorem c3_parse_failure_fail_open :
    ∀ (jsonDecode : String → Option Json) (strToFloat : String → Option ℚ)
      (cfg : Materiality.Config) (output : String),
      (jsonDecode (Materiality.extractJsonSpan output) = none →
        Materiality.parseResponse jsonDecode strToFloat cfg output =
          .ok { isMaterial := true, score := 0.5,
                reason := .str "Parse failure - defaulting to material",
                isBorderline := false }) ∧
      (∀ fields s,
        jsonDecode (Materiality.extractJsonSpan output) = some (Json.obj fields) →
        jGetD fields "materiality_score" (Json.num 0.5) = Json.str s →
        strToFloat s = none →
        Materiality.parseResponse jsonDecode strToFloat cfg output =
          .ok { isMaterial := true, score := 0.5,
                reason := .str "Parse failure - defaulting to material",
                isBorderline := false }) := by
  intro jsonDecode strToFloat cfg output
  constructor
  · intro hdec
    unfold Materiality.parseResponse
    rw [hdec]
    rfl
  · intro fields s hdec hfield hs
    have h2 : pyFloat strToFloat (Json.str s) =
        .error (.valueError "could not convert string to float") := by
      simp [pyFloat, hs]
    unfold Materiality.parseResponse
    rw [hdec]
    simp [hfield, h2, Materiality.failOpen]

/-- C3 witness: a completely undecodable response fails open with the
fixed defaults. -/
theorem c3_witness :
    Materiality.parseResponse decodeNone sfNone Materiality.defaultConfig
        "this is not json" =
      .ok { isMaterial := true, score := 0.5,
            reason := .str "Parse failure - defaulting to material",
            isBorderline := false } :=
  (c3_parse_failure_fail_open decodeNone sfNone Materiality.defaultConfig
    "this is not json").1 rfl

/-- When the rotation call inside `transform` succeeds, the returned
category is whatever `_parse_response` produces (the "General" fallback
on an uncaught parse exception). -/
theorem transform_category_eq
    (cfg : Transformer.Config) (api : String → String → Except String String)
    (jd : String → Option Json) (sf : String → Option ℚ) (fr : ℚ → String)
    (now : Nat) (st : Transformer.State) (title text : String)
    (thrArg : Option ℚ) (raw : String)
    (hok : (Transformer.callApi cfg
        (fun m => api m (Transformer.transformPrompt cfg fr title text
          (thrArg.getD cfg.defaultThreshold))) now st).2 = .ok raw) :
    (Transformer.transform cfg api jd sf fr now st title text thrArg).2.2.2.2 =
      (match Transformer.trParseResponse jd sf raw
          (thrArg.getD cfg.defaultThreshold)
          (Transformer.preprocessText cfg.maxTextLength title) with
       | .error _ => "General"
       | .ok r => r.category) := by
  rcases hc : Transformer.callApi cfg
      (fun m => api m (Transformer.transformPrompt cfg fr title text
        (thrArg.getD cfg.defaultThreshold))) now st with ⟨st', res⟩
  rw [hc] at hok
  simp only [] at hok
  subst hok
  simp only [Transformer.transform]
  rw [hc]
  show (match Transformer.trParseResponse jd sf raw
      (thrArg.getD cfg.defaultThreshold)
      (Transformer.preprocessText cfg.maxTextLength title) with
    | Except.error pe =>
      (st', Json.str title, Json.arr [],
        Json.str ("Error generating summary: " ++ pe.text), "General")
    | Except.ok r => (st', r.title, r.bullets, r.summary, r.category)).2.2.2.2 = _
  cases Transformer.trParseResponse jd sf raw (thrArg.getD cfg.defaultThreshold)
      (Transformer.preprocessText cfg.maxTextLength title) with
  | error pe => rfl
  | ok r => rfl

set_option maxRecDepth 8000 in
/-- C2: whenever the JSON parsing strategy succeeds with a confidence
value below the threshold, the returned category is "General" regardless
of the raw category string.  (The regex fallback parses no confidence at
all and the defaults path already returns "General", so the property is
about the JSON strategy.)  The second conjunct runs the full `transform`
on a concrete response with confidence 0.2, threshold 0.3 and raw
category "M&A". -/
theorem c2_low_confidence_forces_general :
    (∀ (jsonDecode : String → Option Json) (strToFloat : String → Option ℚ)
      (output : String) (threshold : ℚ) (originalTitle : String)
      (fields : List (String × Json)) (c : ℚ) (r : Transformer.TrParsed),
      jsonDecode (stripFences output) = some (Json.obj fields) →
      pyFloat strToFloat (jGetD fields "confidence" (Json.num 0.5)) = .ok c →
      c < threshold →
      Transformer.trParseResponse jsonDecode strToFloat output threshold
        originalTitle = .ok r →
      r.category = "General") ∧
    ((Transformer.transform Transformer.defaultConfig fxC2Api fxC2Decode sfNone
        frDefault 0 Transformer.initState "Orig title" "Some article text"
        (some 0.3)).2.2.2.2 = "General") := by
  have part1 : ∀ (jsonDecode : String → Option Json) (strToFloat : String → Option ℚ)
      (output : String) (threshold : ℚ) (originalTitle : String)
      (fields : List (String × Json)) (c : ℚ) (r : Transformer.TrParsed),
      jsonDecode (stripFences output) = some (Json.obj fields) →
      pyFloat strToFloat (jGetD fields "confidence" (Json.num 0.5)) = .ok c →
      c < threshold →
      Transformer.trParseResponse jsonDecode strToFloat output threshold
        originalTitle = .ok r →
      r.category = "General" := by
    intro jsonDecode strToFloat output threshold originalTitle fields c r
      hdec hconf hlt hres
    unfold Transformer.trParseResponse at hres
    rw [hdec] at hres
    simp only [] at hres
    cases h1 : Transformer.jsonSlice (jGetD fields "title" (.str originalTitle)) 100 with
    | error e => rw [h1] at hres; simp at hres
    | ok titleJ =>
      rw [h1] at hres
      simp only [] at hres
      cases h2 : Transformer.jsonSlice
          (jGetD fields "summary" (.str "No summary available")) 1000 with
      | error e => rw [h2] at hres; simp at hres
      | ok summaryJ =>
        rw [h2] at hres
        simp only [] at hres
        cases h3 : Transformer.validateCategoryJ
            (jGetD fields "category" (.str "General")) with
        | error e => rw [h3] at hres; simp at hres
        | ok category0 =>
          rw [h3] at hres
          simp only [] at hres
          rw [hconf] at hres
          simp only [Except.ok.injEq] at hres
          subst hres
          by_cases hcat : category0 = "General"
          · simp [hcat]
          · simp [if_pos (And.intro hlt hcat)]
  refine ⟨part1, ?_⟩
  rw [transform_category_eq Transformer.defaultConfig fxC2Api fxC2Decode sfNone
    frDefault 0 Transformer.initState "Orig title" "Some article text"
    (some 0.3) fxC2Resp rfl]
  cases hp : Transformer.trParseResponse fxC2Decode sfNone fxC2Resp
      ((some (0.3 : ℚ)).getD Transformer.defaultConfig.defaultThreshold)
      (Transformer.preprocessText Transformer.defaultConfig.maxTextLength
        "Orig title") with
  | error pe => rfl
  | ok r =>
    have : r.category = "General" := by
      refine part1 fxC2Decode sfNone fxC2Resp _ _
        [("title", .str "Deal announced"),
         ("bullets", .arr [.str "point one", .str "point two"]),
         ("summary", .str "Company X buys Y."),
         ("category", .str "M&A"),
         ("confidence", .num 0.2)] 0.2 r rfl rfl ?_ hp
      norm_num [Option.getD, Transformer.defaultConfig]
    simpa using this

set_option maxRecDepth 8000 in
/-- C2 witness: the parse of the concrete confidence-0.2 response at
threshold 0.3 succeeds and its category is "General". -/
theorem c2_witness :
    ∃ r : Transformer.TrParsed,
      Transformer.trParseResponse fxC2Decode sfNone fxC2Resp 0.3 "Orig title" =
        .ok r ∧ r.category = "General" :=
  ⟨_, rfl,
    c2_low_confidence_forces_general.1 fxC2Decode sfNone fxC2Resp 0.3 "Orig title"
      [("title", .str "Deal announced"),
       ("bullets", .arr [.str "point one", .str "point two"]),
       ("summary", .str "Company X buys Y."),
       ("category", .str "M&A"),
       ("confidence", .num 0.2)] 0.2 _ rfl rfl (by norm_num) rfl⟩

/-- C6 counterexample: the claim is false — when the rotation loop
fails with a (non-rate-limit) transport error, `transform` does not
propagate it: the outer `except Exception` converts it into the
fallback tuple `(title, [], "Error generating summary: ...", "General")`. -/
theorem c6_counterexample :
    (Transformer.callApiWithRotation fxC6Cfg (fun m => fxC6Api m "p") 0
        Transformer.initState).2 = .error "connection refused" ∧
    (Transformer.transform fxC6Cfg fxC6Api decodeNone sfNone frDefault 0
        Transformer.initState "My title" "Body" none).2 =
      (.str "My title", .arr [],
        .str "Error generating summary: connection refused", "General") := by
  exact ⟨rfl, rfl⟩

/-- C6 (amended): a transport-level failure of the pool/rotation call
inside `transform` is caught by `transform`'s own handler, which
returns the original title, no bullets, the summary string
"Error generating summary: " + str(e), and category "General" — nothing
propagates to the caller. -/
theorem c6_transform_catches_transport :
    ∀ (cfg : Transformer.Config) (api : String → String → Except String String)
      (jd : String → Option Json) (sf : String → Option ℚ) (fr : ℚ → String)
      (now : Nat) (st : Transformer.State) (title text : String)
      (thrArg : Option ℚ) (st' : Transformer.State) (e : String),
      Transformer.callApi cfg
          (fun m => api m (Transformer.transformPrompt cfg fr title text
            (thrArg.getD cfg.defaultThreshold))) now st = (st', .error e) →
      Transformer.transform cfg api jd sf fr now st title text thrArg =
        (st', (.str title, .arr [],
          .str ("Error generating summary: " ++ e), "General")) := by
  intro cfg api jd sf fr now st title text thrArg st' e h
  simp only [Transformer.transform]
  rw [h]

/-- C6 witness: the amended theorem applied to the concrete
transport-failure fixture. -/
theorem c6_witness :
    Transformer.transform fxC6Cfg fxC6Api decodeNone sfNone frDefault 0
        Transformer.initState "My title" "Body" none =
      ((Transformer.callApi fxC6Cfg
          (fun m => fxC6Api m (Transformer.transformPrompt fxC6Cfg frDefault
            "My title" "Body" ((none : Option ℚ).getD fxC6Cfg.defaultThreshold)))
          0 Transformer.initState).1,
        (.str "My title", .arr [],
          .str "Error generating summary: connection refused", "General")) :=
  c6_transform_catches_transport fxC6Cfg fxC6Api decodeNone sfNone frDefault 0
    Transformer.initState "My title" "Body" none _ "connection refused" rfl

/-- Rotation visits pairwise-distinct models: the model at cursor
position `(c + r) mod N` is not among the models already tried at the
earlier cursor positions `(c + i) mod N`, `i < r`. -/
theorem groq_rot_model_not_mem
    (models : List String) (hnodup : models.Nodup) (c r : Nat)
    (hr : r < models.length) :
    models.getD ((c + r) % models.length) "" ∉
      ((List.range r).map
        (fun i => models.getD ((c + i) % models.length) "")).reverse := by
  intro hmem
  rw [List.mem_reverse] at hmem
  obtain ⟨i, hi, heq⟩ := List.mem_map.mp hmem
  rw [List.mem_range] at hi
  have hN : 0 < models.length := lt_of_le_of_lt (Nat.zero_le r) hr
  have hlt1 : (c + i) % models.length < models.length := Nat.mod_lt _ hN
  have hlt2 : (c + r) % models.length < models.length := Nat.mod_lt _ hN
  rw [List.getD_eq_getElem models "" hlt1, List.getD_eq_getElem models "" hlt2] at heq
  have hidx : (c + i) % models.length = (c + r) % models.length :=
    (hnodup.getElem_inj_iff).mp heq
  have hmd : Nat.ModEq models.length i r := Nat.ModEq.add_left_cancel' c hidx
  have h1 : i % models.length = i := Nat.mod_eq_of_lt (lt_trans hi hr)
  have h2 : r % models.length = r := Nat.mod_eq_of_lt hr
  have : i = r := by
    have := hmd
    unfold Nat.ModEq at this
    omega
  omega

/-- Loop invariant of the rotation loop of `GroqClientPool.call`: if the
cursor starts at position `(c + r) mod N`, the models already tried are
exactly those at positions `(c + i) mod N` for `i < r`, and every model
attempted before the last one fails with a rate-limit error, then the
loop's outcome is decided by the API result of the model at position
`(c + (N - 1)) mod N`: its success value, or its error. -/
theorem groq_callAux_rotation
    (cfg : GroqPool.Config) (api : String → Except String String) (now : Nat)
    (hrot : cfg.enableModelRotation = true) (hnodup : cfg.models.Nodup)
    (c : Nat) :
    ∀ (m r : Nat) (st : GroqPool.State) (lastErr : Option String),
      r + m + 1 = cfg.models.length →
      st.currentModelIndex = (c + r) % cfg.models.length →
      (∀ j, r ≤ j → j + 1 < cfg.models.length → ∃ e,
        api (cfg.models.getD ((c + j) % cfg.models.length) "") = .error e ∧
        GroqPool.isRateLimitError e = true) →
      (GroqPool.callAux cfg api now st
        (((List.range r).map
          (fun i => cfg.models.getD ((c + i) % cfg.models.length) "")).reverse)
        lastErr (cfg.models.length + 1 - r)).2 =
      (match api (cfg.models.getD ((c + (cfg.models.length - 1)) %
          cfg.models.length) "") with
       | .ok t => .ok (pyStrip t,
           cfg.models.getD ((c + (cfg.models.length - 1)) %
             cfg.models.length) "")
       | .error e => .error e) := by
  intro m
  induction m with
  | zero =>
    intro r st lastErr hN hidx _hfail
    have hrN : r < cfg.models.length := by omega
    have hfuel : cfg.models.length + 1 - r = (cfg.models.length - r) + 1 := by omega
    rw [hfuel]
    simp only [GroqPool.callAux]
    have hlt : (((List.range r).map
        (fun i => cfg.models.getD ((c + i) % cfg.models.length) "")).reverse).length <
        cfg.models.length := by
      simpa using hrN
    rw [if_pos hlt, hidx]
    rw [if_neg (groq_rot_model_not_mem cfg.models hnodup c r hrN)]
    have hlast : cfg.models.length - 1 = r := by omega
    rw [hlast]
    split
    · rfl
    · rename_i e happ
      have htried : (cfg.models.getD ((c + r) % cfg.models.length) "" ::
          ((List.range r).map
            (fun i => cfg.models.getD ((c + i) % cfg.models.length) "")).reverse).length =
          cfg.models.length := by
        simpa using by omega
      by_cases hrl : GroqPool.isRateLimitError e
      · rw [if_pos hrl]
        have hcond : (cfg.enableModelRotation && decide
            ((cfg.models.getD ((c + r) % cfg.models.length) "" ::
              ((List.range r).map
                (fun i => cfg.models.getD ((c + i) % cfg.models.length) "")).reverse).length <
              cfg.models.length)) = false := by
          rw [htried]
          simp
        have hc2 : ¬((cfg.enableModelRotation && decide
            ((cfg.models.getD ((c + r) % cfg.models.length) "" ::
              ((List.range r).map
                (fun i => cfg.models.getD ((c + i) % cfg.models.length) "")).reverse).length <
              cfg.models.length)) = true) := by
          rw [hcond]
          simp
        rw [if_neg hc2]
      · rw [if_neg hrl]
  | succ k ih =>
    intro r st lastErr hN hidx hfail
    have hrN : r < cfg.models.length := by omega
    have hr1N : r + 1 < cfg.models.length := by omega
    have hfuel : cfg.models.length + 1 - r = (cfg.models.length - r) + 1 := by omega
    rw [hfuel]
    simp only [GroqPool.callAux]
    have hlt : (((List.range r).map
        (fun i => cfg.models.getD ((c + i) % cfg.models.length) "")).reverse).length <
        cfg.models.length := by
      simpa using hrN
    rw [if_pos hlt, hidx]
    rw [if_neg (groq_rot_model_not_mem cfg.models hnodup c r hrN)]
    obtain ⟨e, herr, hrle⟩ := hfail r (le_refl r) hr1N
    split
    · rename_i t happ
      rw [herr] at happ
      exact absurd happ (by simp)
    · rename_i e' happ
      rw [herr] at happ
      obtain rfl : e = e' := by
        simpa using happ
      rw [if_pos hrle]
      have hcond : (cfg.enableModelRotation && decide
          ((cfg.models.getD ((c + r) % cfg.models.length) "" ::
            ((List.range r).map
              (fun i => cfg.models.getD ((c + i) % cfg.models.length) "")).reverse).length <
            cfg.models.length)) = true := by
        rw [hrot]
        simp only [Bool.true_and, decide_eq_true_eq]
        simpa using hr1N
      rw [if_pos hcond]
      have hidx2 : ((GroqPool.getNextModel cfg
          { currentModelIndex := (c + r) % cfg.models.length
            modelFailures := (GroqPool.bump st.modelFailures
              (cfg.models.getD ((c + r) % cfg.models.length) ""))
            modelLastUsed := st.modelLastUsed
            totalApiCalls := st.totalApiCalls
            successfulCallsByModel :=
              st.successfulCallsByModel }).1).currentModelIndex =
          (c + (r + 1)) % cfg.models.length := by
        unfold GroqPool.getNextModel
        rw [hrot]
        simp only [Bool.not_true, Bool.false_eq_true, if_false]
        show ((c + r) % cfg.models.length + 1) % cfg.models.length = _
        rw [Nat.mod_add_mod, Nat.add_assoc]
      have htried : cfg.models.getD ((c + r) % cfg.models.length) "" ::
          ((List.range r).map
            (fun i => cfg.models.getD ((c + i) % cfg.models.length) "")).reverse =
          ((List.range (r + 1)).map
            (fun i => cfg.models.getD ((c + i) % cfg.models.length) "")).reverse := by
        rw [List.range_succ]
        simp
      have hfuel2 : cfg.models.length - r = cfg.models.length + 1 - (r + 1) := by omega
      rw [htried, hfuel2]
      exact ih (r + 1) _ (some e) (by omega) hidx2
        (fun j hj hj1 => hfail j (by omega) hj1)

/-- C1: with rotation enabled, distinct models and a valid cursor, when
every model attempted before the last one rate-limits, `call` is decided
by the last attempted model (the one `N - 1` rotation steps past the
cursor): if it succeeds, `call` returns its stripped response text
paired with its identifier; if it too fails, `call` propagates that
last error. -/
theorem c1_pool_rotation
    (cfg : GroqPool.Config)
    (rawApi : String → String → ℚ → Nat → Except String String)
    (now : Nat) (st : GroqPool.State) (prompt : String)
    (temperature : Option ℚ) (maxTokens : Option Nat) (lastModel : String)
    (hrot : cfg.enableModelRotation = true) (hnodup : cfg.models.Nodup)
    (hc : st.currentModelIndex < cfg.models.length)
    (hlast : lastModel = cfg.models.getD
      ((st.currentModelIndex + (cfg.models.length - 1)) % cfg.models.length) "")
    (hfail : ∀ j, j + 1 < cfg.models.length → ∃ e,
      rawApi (cfg.models.getD ((st.currentModelIndex + j) % cfg.models.length) "")
          prompt (temperature.getD cfg.temperature) (maxTokens.getD cfg.maxTokens) =
        .error e ∧ GroqPool.isRateLimitError e = true) :
    (∀ t, rawApi lastModel prompt (temperature.getD cfg.temperature)
        (maxTokens.getD cfg.maxTokens) = .ok t →
      (GroqPool.call cfg rawApi now st prompt temperature maxTokens).2 =
        .ok (pyStrip t, lastModel)) ∧
    (∀ e, rawApi lastModel prompt (temperature.getD cfg.temperature)
        (maxTokens.getD cfg.maxTokens) = .error e →
      (GroqPool.call cfg rawApi now st prompt temperature maxTokens).2 =
        .error e) := by
  have key := groq_callAux_rotation cfg
    (fun m => rawApi m prompt (temperature.getD cfg.temperature)
      (maxTokens.getD cfg.maxTokens)) now hrot hnodup st.currentModelIndex
    (cfg.models.length - 1) 0 st none (by omega)
    (by rw [Nat.add_zero]; exact (Nat.mod_eq_of_lt hc).symm)
    (fun j _ hj => hfail j hj)
  rw [← hlast] at key
  have hcall : (GroqPool.call cfg rawApi now st prompt temperature maxTokens).2 =
      (GroqPool.callAux cfg
        (fun m => rawApi m prompt (temperature.getD cfg.temperature)
          (maxTokens.getD cfg.maxTokens)) now st
        (((List.range 0).map
          (fun i => cfg.models.getD ((st.currentModelIndex + i) %
            cfg.models.length) "")).reverse)
        none (cfg.models.length + 1 - 0)).2 := rfl
  constructor
  · intro t ht
    rw [hcall, key]
    simp [ht]
  · intro e he
    rw [hcall, key]
    simp [he]

/-- C1 witness: a two-model pool where "alpha" rate-limits and "beta"
answers returns beta's stripped response paired with "beta". -/
theorem c1_witness :
    (GroqPool.call fxPoolCfg fxApiRotate 0 GroqPool.initState "p" none none).2 =
      .ok ("All good.", "beta") := by
  have hfail : ∀ j, j + 1 < fxPoolCfg.models.length → ∃ e,
      fxApiRotate (fxPoolCfg.models.getD
          ((GroqPool.initState.currentModelIndex + j) % fxPoolCfg.models.length) "")
          "p" ((none : Option ℚ).getD fxPoolCfg.temperature)
          ((none : Option Nat).getD fxPoolCfg.maxTokens) =
        .error e ∧ GroqPool.isRateLimitError e = true := by
    intro j hj
    have hj2 : j + 1 < 2 := hj
    have hj0 : j = 0 := by omega
    subst hj0
    exact ⟨"Error code: 429 - Rate limit reached", rfl, by decide⟩
  exact (c1_pool_rotation fxPoolCfg fxApiRotate 0 GroqPool.initState "p" none none
    "beta" rfl (by decide) (by decide) (by decide) hfail).1 " All good. " rfl

/-- C10: the rotation cursor moves only inside rate-limit rotation — a
call that succeeds on the model at the cursor leaves it unchanged, a
call whose first attempt raises a non-rate-limit error leaves it
unchanged, and `reset_stats` never touches it. -/
theorem c10_cursor_frame
    (cfg : GroqPool.Config)
    (rawApi : String → String → ℚ → Nat → Except String String)
    (now : Nat) (st : GroqPool.State) (prompt : String)
    (temperature : Option ℚ) (maxTokens : Option Nat)
    (hne : cfg.models ≠ []) :
    (∀ t, rawApi (cfg.models.getD st.currentModelIndex "") prompt
        (temperature.getD cfg.temperature) (maxTokens.getD cfg.maxTokens) = .ok t →
      (GroqPool.call cfg rawApi now st prompt temperature
        maxTokens).1.currentModelIndex = st.currentModelIndex) ∧
    (∀ e, rawApi (cfg.models.getD st.currentModelIndex "") prompt
        (temperature.getD cfg.temperature) (maxTokens.getD cfg.maxTokens) =
          .error e →
      GroqPool.isRateLimitError e = false →
      (GroqPool.call cfg rawApi now st prompt temperature
        maxTokens).1.currentModelIndex = st.currentModelIndex) ∧
    (∀ s : GroqPool.State,
      (GroqPool.resetStats s).currentModelIndex = s.currentModelIndex) := by
  have hN : 0 < cfg.models.length := List.length_pos.mpr hne
  refine ⟨?_, ?_, fun s => rfl⟩
  · intro t ht
    show (GroqPool.callAux cfg
        (fun m => rawApi m prompt (temperature.getD cfg.temperature)
          (maxTokens.getD cfg.maxTokens)) now st [] none
        (cfg.models.length + 1)).1.currentModelIndex = _
    simp only [GroqPool.callAux]
    rw [if_pos (by simpa using hN), if_neg (List.not_mem_nil _), ht]
  · intro e he hrl
    show (GroqPool.callAux cfg
        (fun m => rawApi m prompt (temperature.getD cfg.temperature)
          (maxTokens.getD cfg.maxTokens)) now st [] none
        (cfg.models.length + 1)).1.currentModelIndex = _
    simp only [GroqPool.callAux]
    rw [if_pos (by simpa using hN), if_neg (List.not_mem_nil _), he]
    simp [hrl]

/-- C10 witness: success-at-cursor, non-rate-limit failure, and
`reset_stats` all leave the cursor of a fresh two-model pool at 0. -/
theorem c10_witness :
    ((GroqPool.call fxPoolCfg fxApiOk 0 GroqPool.initState "p" none
        none).1.currentModelIndex = GroqPool.initState.currentModelIndex) ∧
    ((GroqPool.call fxPoolCfg fxApiServerErr 0 GroqPool.initState "p" none
        none).1.currentModelIndex = GroqPool.initState.currentModelIndex) ∧
    ((GroqPool.resetStats GroqPool.initState).currentModelIndex =
      GroqPool.initState.currentModelIndex) := by
  obtain ⟨h1, -, h3⟩ := c10_cursor_frame fxPoolCfg fxApiOk 0 GroqPool.initState
    "p" none none (by decide)
  obtain ⟨-, g2, -⟩ := c10_cursor_frame fxPoolCfg fxApiServerErr 0
    GroqPool.initState "p" none none (by decide)
  exact ⟨h1 "hello" rfl, g2 "500 internal server error" rfl (by decide),
    h3 GroqPool.initState⟩
